import Mathlib

/-!
# Verification of the `box-scape-visualizer` 3D bin-packing core

This file is a shallow embedding, over exact rationals, of the packing engine
of the repository: the data model (`src/services/packing/types.ts`), the
geometry utilities (`src/services/packing/utils.ts`), the free-space manager
(`src/services/packing/spaceManager.ts`), the collision / support / scoring
functions (`src/services/packing/placementScorer.ts`), the packer
(`src/services/packing/packer.ts`) and the optimal-box search
(`src/services/packing/optimalBoxFinder.ts`).

Modelling conventions:
* JavaScript numbers are modelled as exact rationals (`ℚ`).  All arithmetic
  appearing in the engine is `+ - * /`, `min`, `max`, `abs`, `floor`, `ceil`
  and comparisons, which are exact on the rationals; the fixed tolerances
  (`0.001`, `0.01`, `0.1`) are exact rationals here.
* The two transcendental library calls, `Math.sqrt` (inside the placement
  scorer's distance term) and `Math.cbrt` (inside the optimal-box finder's
  initial estimate), have no exact rational counterpart.  The embedding is
  therefore parameterised by the functions `sqrtFn` / `cbrtFn` used for them,
  and every theorem below holds for an arbitrary choice of these parameters
  (in particular for the actual floating-point `Math.sqrt` / `Math.cbrt`).
* `Array.prototype.sort` with a comparator `c` is (since ES2019) a stable
  sort; every comparator used by the engine induces a total preorder, so the
  result is the unique stable order, which is computed here by
  `List.insertionSort` with the relation `c a b ≤ 0`.
* `item.quantity` is modelled as a natural number: the instance loop
  `for (let i = 0; i < item.quantity; i++)` runs `quantity` times for
  non-negative integer quantities.
* `JSON.parse(JSON.stringify(items))` is the identity on the modelled data.
-/

namespace BoxScape

/-- A 3-component numeric tuple, used for `position` and `rotation`
(`[number, number, number]` in `types.ts`). -/
structure V3 where
  x : ℚ
  y : ℚ
  z : ℚ
deriving DecidableEq

/-- `BoxDimensions` from `types.ts`. -/
structure BoxDimensions where
  width : ℚ
  height : ℚ
  depth : ℚ
deriving DecidableEq

/-- The TypeScript field `maxStack: number | boolean` (`types.ts`). -/
inductive StackVal where
  | bool (b : Bool)
  | num (q : ℚ)
deriving DecidableEq

/-- JavaScript truthiness of a `number | boolean` value (`!item.maxStack`
in `packer.ts` line 103): `false` and `0` are falsy. -/
def StackVal.truthy : StackVal → Bool
  | .bool b => b
  | .num q => decide (q ≠ 0)

/-- `Item` from `types.ts`.  `allowRotation?: boolean` is optional, hence
`Option Bool`; `quantity` is a natural number (see the header). -/
structure Item where
  id : String
  name : String
  width : ℚ
  height : ℚ
  depth : ℚ
  quantity : ℕ
  weight : ℚ
  maxStack : StackVal
  color : String
  allowRotation : Option Bool
deriving DecidableEq

/-- `PackedItem extends Item` from `types.ts`: an item plus the center
`position` and the `rotation` angles actually used. -/
structure PackedItem extends Item where
  position : V3
  rotation : V3
deriving DecidableEq

/-- `Space` from `packing/types.ts`: an axis-aligned free region, `(x,y,z)`
its minimum corner. -/
structure Space where
  x : ℚ
  y : ℚ
  z : ℚ
  width : ℚ
  height : ℚ
  depth : ℚ
deriving DecidableEq

instance : Inhabited Space := ⟨⟨0, 0, 0, 0, 0, 0⟩⟩

/-- `Orientation` from `packing/types.ts`. -/
structure Orientation where
  width : ℚ
  height : ℚ
  depth : ℚ
  rotation : V3
deriving DecidableEq

/-- `OptimizeOptions` from `types.ts` (both fields required). -/
structure OptimizeOptions where
  allowRotation : Bool
  allowStacking : Bool
deriving DecidableEq

/-- `PackingResult` from `types.ts`. -/
structure PackingResult where
  success : Bool
  packedItems : List PackedItem
  unpackedItems : List Item
  utilizationPercentage : ℚ
  packingInstructions : List String
  boxDimensions : BoxDimensions
deriving DecidableEq

/-! ## JavaScript `Math` helpers (exact on rationals) -/

/-- `Math.ceil`, as a rational-valued function. -/
def jsCeil (q : ℚ) : ℚ := (⌈q⌉ : ℤ)

/-- `Math.floor`, as a rational-valued function. -/
def jsFloor (q : ℚ) : ℚ := (⌊q⌋ : ℤ)

/-- `Math.round` for non-negative arguments: `⌊q + 1/2⌋`. -/
def jsRound (q : ℚ) : ℤ := ⌊q + 1/2⌋

/-! ## `utils.ts` -/

/-- `rangesOverlap` (`utils.ts` lines 5-7). -/
def rangesOverlap (min1 max1 min2 max2 : ℚ) : Bool :=
  !(decide (max1 ≤ min2) || decide (min1 ≥ max2))

/-- `getRotationText` (`utils.ts` lines 10-21). -/
def getRotationText (rotation : V3) : String :=
  if rotation.x = 0 ∧ rotation.y = 0 ∧ rotation.z = 0 then ""
  else
    let axes :=
      (if rotation.x ≠ 0 then [toString rotation.x ++ "° around X-axis"] else []) ++
      (if rotation.y ≠ 0 then [toString rotation.y ++ "° around Y-axis"] else []) ++
      (if rotation.z ≠ 0 then [toString rotation.z ++ "° around Z-axis"] else [])
    "rotated " ++ String.intercalate " and " axes

/-- `canItemBeStacked` (`utils.ts` lines 24-35), on the `maxStack` field
(the TypeScript function only reads `item.maxStack`, and is applied to both
`Item` and `PackedItem` values). -/
def canItemBeStacked (maxStack : StackVal) : Bool :=
  match maxStack with
  | .bool b => b
  | .num q => decide (q > 1)

/-- `isFullyContained` (`utils.ts` lines 38-49): is `space1` contained in
`space2`, up to the `0.001` tolerance. -/
def isFullyContained (space1 space2 : Space) : Bool :=
  let tolerance : ℚ := 1/1000
  decide (space1.x ≥ space2.x - tolerance) &&
  decide (space1.y ≥ space2.y - tolerance) &&
  decide (space1.z ≥ space2.z - tolerance) &&
  decide (space1.x + space1.width ≤ space2.x + space2.width + tolerance) &&
  decide (space1.y + space1.height ≤ space2.y + space2.height + tolerance) &&
  decide (space1.z + space1.depth ≤ space2.z + space2.depth + tolerance)

/-- `getPossibleOrientations` (`utils.ts` lines 52-115): one orientation when
`allowRotation === false`, otherwise the six fixed permutation/rotation
pairs, in source order. -/
def getPossibleOrientations (item : Item) : List Orientation :=
  if item.allowRotation = some false then
    [⟨item.width, item.height, item.depth, ⟨0, 0, 0⟩⟩]
  else
    [⟨item.width, item.height, item.depth, ⟨0, 0, 0⟩⟩,
     ⟨item.width, item.depth, item.height, ⟨90, 0, 0⟩⟩,
     ⟨item.depth, item.height, item.width, ⟨0, 90, 0⟩⟩,
     ⟨item.height, item.width, item.depth, ⟨0, 0, 90⟩⟩,
     ⟨item.depth, item.width, item.height, ⟨90, 90, 0⟩⟩,
     ⟨item.height, item.depth, item.width, ⟨90, 0, 90⟩⟩]

/-! ## `spaceManager.ts` -/

/-- Volume of a `Space`. -/
def spaceVolume (s : Space) : ℚ := s.width * s.height * s.depth

/-- The comparator `(a, b) => b.vol - a.vol` used to sort spaces by
descending volume (`spaceManager.ts` lines 97-99 and 237-239), as the
relation `comparator a b ≤ 0` fed to the stable sort. -/
def volumeDescLE (a b : Space) : Prop := spaceVolume b - spaceVolume a ≤ 0

instance : DecidableRel volumeDescLE := fun a b => by
  unfold volumeDescLE; infer_instance

/-- `splitSpaceImproved` (`spaceManager.ts` lines 6-102): the up-to-six
remainder sub-spaces around the placed item, filtered to extents `≥ 0.5`
and sorted by descending volume. -/
def splitSpaceImproved (space : Space) (itemX itemY itemZ itemWidth itemHeight itemDepth : ℚ) :
    List Space :=
  let possibleSpaces : List Space :=
    (if space.x + space.width > itemX + itemWidth then
      [⟨itemX + itemWidth, space.y, space.z,
        space.x + space.width - (itemX + itemWidth), space.height, space.depth⟩]
     else []) ++
    (if itemX > space.x then
      [⟨space.x, space.y, space.z, itemX - space.x, space.height, space.depth⟩]
     else []) ++
    (if space.y + space.height > itemY + itemHeight then
      [⟨space.x, itemY + itemHeight, space.z,
        space.width, space.y + space.height - (itemY + itemHeight), space.depth⟩]
     else []) ++
    (if itemY > space.y then
      [⟨space.x, space.y, space.z, space.width, itemY - space.y, space.depth⟩]
     else []) ++
    (if space.z + space.depth > itemZ + itemDepth then
      [⟨space.x, space.y, itemZ + itemDepth,
        space.width, space.height, space.z + space.depth - (itemZ + itemDepth)⟩]
     else []) ++
    (if itemZ > space.z then
      [⟨space.x, space.y, space.z, space.width, space.height, itemZ - space.z⟩]
     else [])
  let viableSpaces := possibleSpaces.filter fun s =>
    decide (s.width ≥ 1/2) && decide (s.height ≥ 1/2) && decide (s.depth ≥ 1/2)
  let sorted := List.insertionSort volumeDescLE viableSpaces
  if sorted.length > 0 then sorted else []

/-- `tryMergeSpaces` (`spaceManager.ts` lines 105-197): merge two spaces
sharing five faces, adjacent along the remaining axis, tolerance `0.01`. -/
def tryMergeSpaces (space1 space2 : Space) : Option Space :=
  let tolerance : ℚ := 1/100
  if |space1.y - space2.y| < tolerance ∧ |space1.z - space2.z| < tolerance ∧
     |space1.height - space2.height| < tolerance ∧ |space1.depth - space2.depth| < tolerance ∧
     |space1.x + space1.width - space2.x| < tolerance then
    some ⟨space1.x, space1.y, space1.z, space1.width + space2.width, space1.height, space1.depth⟩
  else if |space1.y - space2.y| < tolerance ∧ |space1.z - space2.z| < tolerance ∧
     |space1.height - space2.height| < tolerance ∧ |space1.depth - space2.depth| < tolerance ∧
     |space2.x + space2.width - space1.x| < tolerance then
    some ⟨space2.x, space1.y, space1.z, space1.width + space2.width, space1.height, space1.depth⟩
  else if |space1.x - space2.x| < tolerance ∧ |space1.z - space2.z| < tolerance ∧
     |space1.width - space2.width| < tolerance ∧ |space1.depth - space2.depth| < tolerance ∧
     |space1.y + space1.height - space2.y| < tolerance then
    some ⟨space1.x, space1.y, space1.z, space1.width, space1.height + space2.height, space1.depth⟩
  else if |space1.x - space2.x| < tolerance ∧ |space1.z - space2.z| < tolerance ∧
     |space1.width - space2.width| < tolerance ∧ |space1.depth - space2.depth| < tolerance ∧
     |space2.y + space2.height - space1.y| < tolerance then
    some ⟨space1.x, space2.y, space1.z, space1.width, space1.height + space2.height, space1.depth⟩
  else if |space1.x - space2.x| < tolerance ∧ |space1.y - space2.y| < tolerance ∧
     |space1.width - space2.width| < tolerance ∧ |space1.height - space2.height| < tolerance ∧
     |space1.z + space1.depth - space2.z| < tolerance then
    some ⟨space1.x, space1.y, space1.z, space1.width, space1.height, space1.depth + space2.depth⟩
  else if |space1.x - space2.x| < tolerance ∧ |space1.y - space2.y| < tolerance ∧
     |space1.width - space2.width| < tolerance ∧ |space1.height - space2.height| < tolerance ∧
     |space2.z + space2.depth - space1.z| < tolerance then
    some ⟨space1.x, space1.y, space2.z, space1.width, space1.height, space1.depth + space2.depth⟩
  else
    none

/-- Pass 1 of `cleanupSpacesImproved` (`spaceManager.ts` lines 204-210):
drop spaces with an extent `< 0.5` or volume `< 2`.  Removing while
iterating from the end is equivalent to a filter. -/
def cleanupTinyPass (spaces : List Space) : List Space :=
  spaces.filter fun space =>
    !(decide (space.width < 1/2) || decide (space.height < 1/2) || decide (space.depth < 1/2) ||
      decide (space.width * space.height * space.depth < 2))

/-- Does index `i` of `l` have a container at some other index
(`isFullyContained(spaces[i], spaces[j])` for some `j ≠ i`)? -/
def hasContainer (l : List Space) (i : ℕ) : Bool :=
  (List.range l.length).any fun j =>
    decide (j ≠ i) &&
      (match l[i]?, l[j]? with
       | some a, some b => isFullyContained a b
       | _, _ => false)

/-- Pass 2 of `cleanupSpacesImproved` (`spaceManager.ts` lines 213-220):
the loop `for (let i = spaces.length - 1; i >= 0; i--)` removes index `i`
from the current list when it is contained in another current element.
`cleanupContainedAux (i+1) l` processes indices `i, i-1, …, 0` of the
evolving list. -/
def cleanupContainedAux : ℕ → List Space → List Space
  | 0, l => l
  | i + 1, l => cleanupContainedAux i (if hasContainer l i then l.eraseIdx i else l)

/-- Pass 2 entry point: start at the last index of the list. -/
def cleanupContained (l : List Space) : List Space :=
  cleanupContainedAux l.length l

/-- The inner `j` loop of pass 3 of `cleanupSpacesImproved`
(`spaceManager.ts` lines 223-232) for a fixed `i`: scan the elements after
`i` once, left to right; a merged element is absorbed into the current
`spaces[i]` (and the scan continues with the merged value), an unmerged
element is kept. -/
def absorbMerges (cur : Space) : List Space → Space × List Space
  | [] => (cur, [])
  | y :: ys =>
    match tryMergeSpaces cur y with
    | some m => absorbMerges m ys
    | none =>
      let r := absorbMerges cur ys
      (r.1, y :: r.2)

set_option maxHeartbeats 1000000

/-- Pass 3 of `cleanupSpacesImproved`: the outer `i` loop.  Elements before
`i` are final; position `i` absorbs all mergeable later elements, then `i`
advances.  The fuel argument only bounds the recursion (each outer step
finalises one element, and `absorbMerges` never lengthens the remainder, so
`l.length` steps always suffice); it keeps the function structurally
recursive, hence computable by the kernel. -/
def mergeSpacesPassAux : ℕ → List Space → List Space
  | _, [] => []
  | 0, l => l
  | fuel + 1, x :: xs =>
    let r := absorbMerges x xs
    r.1 :: mergeSpacesPassAux fuel r.2

/-- Pass 3 of `cleanupSpacesImproved` (`spaceManager.ts` lines 223-232). -/
def mergeSpacesPass (l : List Space) : List Space :=
  mergeSpacesPassAux l.length l

/-- The comparator of the final sort of `cleanupSpacesImproved`
(`spaceManager.ts` lines 244-254): floor spaces first, then ascending `y`,
then ascending `x + z`. -/
def spaceOrderCmp (a b : Space) : ℚ :=
  if a.y = 0 ∧ b.y ≠ 0 then -1
  else if a.y ≠ 0 ∧ b.y = 0 then 1
  else if a.y ≠ b.y then a.y - b.y
  else (a.x + a.z) - (b.x + b.z)

/-- The final-sort comparator as a relation (`comparator a b ≤ 0`). -/
def spaceOrderLE (a b : Space) : Prop := spaceOrderCmp a b ≤ 0

instance : DecidableRel spaceOrderLE := fun a b => by
  unfold spaceOrderLE; infer_instance

/-- `cleanupSpacesImproved` (`spaceManager.ts` lines 200-255).  The source
mutates the array in place; the model returns the new list.  The early
return for `length ≤ 1` leaves the list unchanged. -/
def cleanupSpacesImproved (spaces : List Space) : List Space :=
  if spaces.length ≤ 1 then spaces
  else
    let s1 := cleanupTinyPass spaces
    let s2 := cleanupContained s1
    let s3 := mergeSpacesPass s2
    let s4 :=
      if s3.length > 35 then (List.insertionSort volumeDescLE s3).take 35
      else s3
    List.insertionSort spaceOrderLE s4

/-! ## `placementScorer.ts` -/

/-- Minimum-corner x of a packed item's bounding box (stored as center +
extents). -/
def pMinX (p : PackedItem) : ℚ := p.position.x - p.width / 2

/-- Maximum-corner x of a packed item's bounding box. -/
def pMaxX (p : PackedItem) : ℚ := p.position.x + p.width / 2

/-- Minimum-corner y of a packed item's bounding box. -/
def pMinY (p : PackedItem) : ℚ := p.position.y - p.height / 2

/-- Maximum-corner y of a packed item's bounding box. -/
def pMaxY (p : PackedItem) : ℚ := p.position.y + p.height / 2

/-- Minimum-corner z of a packed item's bounding box. -/
def pMinZ (p : PackedItem) : ℚ := p.position.z - p.depth / 2

/-- Maximum-corner z of a packed item's bounding box. -/
def pMaxZ (p : PackedItem) : ℚ := p.position.z + p.depth / 2

/-- `checkCollisionPrecise` (`placementScorer.ts` lines 5-48): does the
candidate box (corner `(x,y,z)`, extents `(width,height,depth)`) overlap
some packed item on all three axes, beyond the `0.001` tolerance? -/
def checkCollisionPrecise (x y z width height depth : ℚ)
    (packedItems : List PackedItem) : Bool :=
  let tolerance : ℚ := 1/1000
  packedItems.any fun item =>
    decide (x < pMaxX item - tolerance) && decide (x + width > pMinX item + tolerance) &&
    decide (y < pMaxY item - tolerance) && decide (y + height > pMinY item + tolerance) &&
    decide (z < pMaxZ item - tolerance) && decide (z + depth > pMinZ item + tolerance)

/-- `checkIfSpaceHasSupport` (`placementScorer.ts` lines 51-109): a space at
`y = 0` is supported; otherwise some stackable packed item whose top face is
within `0.1` of the space's bottom must overlap at least 25% of the space's
base area. -/
def checkIfSpaceHasSupport (space : Space) (packedItems : List PackedItem)
    (_boxWidth _boxDepth : ℚ) : Bool :=
  if space.y = 0 then true
  else
    packedItems.any fun item =>
      canItemBeStacked item.maxStack &&
      decide (|pMaxY item - space.y| < 1/10) &&
      (decide (pMinX item ≤ space.x ∧ pMaxX item ≥ space.x) ||
       decide (pMinX item ≤ space.x + space.width ∧ pMaxX item ≥ space.x + space.width) ||
       decide (pMinX item ≥ space.x ∧ pMaxX item ≤ space.x + space.width)) &&
      (decide (pMinZ item ≤ space.z ∧ pMaxZ item ≥ space.z) ||
       decide (pMinZ item ≤ space.z + space.depth ∧ pMaxZ item ≥ space.z + space.depth) ||
       decide (pMinZ item ≥ space.z ∧ pMaxZ item ≤ space.z + space.depth)) &&
      (let overlapWidth := min (pMaxX item) (space.x + space.width) - max (pMinX item) space.x
       let overlapDepth := min (pMaxZ item) (space.z + space.depth) - max (pMinZ item) space.z
       decide (overlapWidth * overlapDepth ≥ 1/4 * (space.width * space.depth)))

/-- `estimateWastedSpaceRisk` (`placementScorer.ts` lines 112-154): penalty
for leaving a gap narrower than 15 units against a box wall. -/
def estimateWastedSpaceRisk (x y z width height depth boxWidth boxHeight boxDepth : ℚ) : ℚ :=
  let smallGapThreshold : ℚ := 15
  let r1 := if x > 0 ∧ x < smallGapThreshold then (smallGapThreshold - x) * 1 else 0
  let r2 := if x + width < boxWidth ∧ boxWidth - (x + width) < smallGapThreshold then
              (smallGapThreshold - (boxWidth - (x + width))) * 1 else 0
  let r3 := if y > 0 ∧ y < smallGapThreshold then (smallGapThreshold - y) * (3/2) else 0
  let r4 := if y + height < boxHeight ∧ boxHeight - (y + height) < smallGapThreshold then
              (smallGapThreshold - (boxHeight - (y + height))) * 1 else 0
  let r5 := if z > 0 ∧ z < smallGapThreshold then (smallGapThreshold - z) * 1 else 0
  let r6 := if z + depth < boxDepth ∧ boxDepth - (z + depth) < smallGapThreshold then
              (smallGapThreshold - (boxDepth - (z + depth))) * 1 else 0
  r1 + r2 + r3 + r4 + r5 + r6

/-- `calculatePlacementScore` (`placementScorer.ts` lines 157-320); lower is
better.  `sqrtFn` stands for `Math.sqrt` (see the file header); `none` in
the minimum-distance accumulator stands for the JavaScript `Infinity`. -/
def calculatePlacementScore (sqrtFn : ℚ → ℚ) (space : Space) (orientation : Orientation)
    (boxWidth boxHeight boxDepth : ℚ) (packedItems : List PackedItem) : ℚ :=
  -- floor / directly-on-item / floating component
  let scoreA : ℚ :=
    if space.y = 0 then -20000
    else
      let directlyOnItem := packedItems.any fun packedItem =>
        decide (|space.y - (packedItem.position.y + packedItem.height / 2)| < 1/10)
      if directlyOnItem then -15000 else 10000
  -- COMPONENT 1: corner / edge / wall placement bonus
  let xWall : Prop := space.x = 0 ∨ space.x + orientation.width = boxWidth
  let yWall : Prop := space.y = 0 ∨ space.y + orientation.height = boxHeight
  let zWall : Prop := space.z = 0 ∨ space.z + orientation.depth = boxDepth
  let scoreB : ℚ :=
    if xWall ∧ yWall ∧ zWall then -10000
    else if (xWall ∧ yWall) ∨ (xWall ∧ zWall) ∨ (yWall ∧ zWall) then -5000
    else if xWall ∨ yWall ∨ zWall then -2000
    else 0
  -- COMPONENT 2: proximity to already-packed items
  let itemMinX := space.x
  let itemMaxX := space.x + orientation.width
  let itemMinY := space.y
  let itemMaxY := space.y + orientation.height
  let itemMinZ := space.z
  let itemMaxZ := space.z + orientation.depth
  let touchTolerance : ℚ := 1/100
  let prox : ℕ × Option ℚ := packedItems.foldl
    (fun acc packedItem =>
      let touchX := ((decide (|itemMinX - pMaxX packedItem| < touchTolerance)) ||
                     (decide (|itemMaxX - pMinX packedItem| < touchTolerance))) &&
                    rangesOverlap itemMinY itemMaxY (pMinY packedItem) (pMaxY packedItem) &&
                    rangesOverlap itemMinZ itemMaxZ (pMinZ packedItem) (pMaxZ packedItem)
      let touchY := ((decide (|itemMinY - pMaxY packedItem| < touchTolerance)) ||
                     (decide (|itemMaxY - pMinY packedItem| < touchTolerance))) &&
                    rangesOverlap itemMinX itemMaxX (pMinX packedItem) (pMaxX packedItem) &&
                    rangesOverlap itemMinZ itemMaxZ (pMinZ packedItem) (pMaxZ packedItem)
      let touchZ := ((decide (|itemMinZ - pMaxZ packedItem| < touchTolerance)) ||
                     (decide (|itemMaxZ - pMinZ packedItem| < touchTolerance))) &&
                    rangesOverlap itemMinX itemMaxX (pMinX packedItem) (pMaxX packedItem) &&
                    rangesOverlap itemMinY itemMaxY (pMinY packedItem) (pMaxY packedItem)
      let count := acc.1 + (if touchX then 1 else 0) + (if touchY then 1 else 0) +
                   (if touchZ then 1 else 0)
      let dx := max 0 (min |itemMinX - pMaxX packedItem| |itemMaxX - pMinX packedItem|)
      let dy := max 0 (min |itemMinY - pMaxY packedItem| |itemMaxY - pMinY packedItem|)
      let dz := max 0 (min |itemMinZ - pMaxZ packedItem| |itemMaxZ - pMinZ packedItem|)
      let distance := sqrtFn (dx * dx + dy * dy + dz * dz)
      let newMin : Option ℚ := match acc.2 with
        | none => some distance
        | some d => some (min d distance)
      (count, newMin))
    (0, none)
  let touchingFacesCount := prox.1
  let scoreC : ℚ := -(touchingFacesCount : ℚ) * 2000
  let scoreD : ℚ :=
    if touchingFacesCount = 0 then
      match prox.2 with
      | some d => d * 100
      | none => 0
    else 0
  -- COMPONENT 3: fit quality
  let widthFit := space.width - orientation.width
  let heightFit := space.height - orientation.height
  let depthFit := space.depth - orientation.depth
  let scoreE := (widthFit * heightFit * depthFit) * 3 + (widthFit + heightFit + depthFit) * 30
  -- COMPONENT 4: volumetric efficiency of the orientation
  let orientationVolume := orientation.width * orientation.height * orientation.depth
  let spaceVol := space.width * space.height * space.depth
  let scoreF := -(orientationVolume / spaceVol) * 3000
  -- COMPONENT 5: position preference
  let scoreG := space.y * 150 + (space.x + space.z) * 15
  -- COMPONENT 6: wasted space risk
  let scoreH := estimateWastedSpaceRisk space.x space.y space.z
    orientation.width orientation.height orientation.depth boxWidth boxHeight boxDepth * 200
  scoreA + scoreB + scoreC + scoreD + scoreE + scoreF + scoreG + scoreH

/-! ## `packer.ts` -/

/-- The item-sorting comparator of `packItems` (`packer.ts` lines 45-64):
descending volume, then descending height, then descending max planar
dimension. -/
def itemSortCmp (a b : Item) : ℚ :=
  let volumeA := a.width * a.height * a.depth
  let volumeB := b.width * b.height * b.depth
  if volumeB ≠ volumeA then volumeB - volumeA
  else if b.height ≠ a.height then b.height - a.height
  else max b.width b.depth - max a.width a.depth

/-- The item comparator as the relation `comparator a b ≤ 0` fed to the
stable sort. -/
def itemSortLE (a b : Item) : Prop := itemSortCmp a b ≤ 0

instance : DecidableRel itemSortLE := fun a b => by
  unfold itemSortLE; infer_instance

/-- The best feasible placement tracked by the search loop of `packItems`
(`bestScore` / `bestSpace` / `bestOrientation` / `bestPosition`,
`packer.ts` lines 92-95).  `spaceIdx` is the index into the space list. -/
structure Candidate where
  score : ℚ
  spaceIdx : ℕ
  orientation : Orientation
  posX : ℚ
  posY : ℚ
  posZ : ℚ
deriving DecidableEq

/-- The gravity-constraint guard of the space loop (`packer.ts` lines
101-114): a space is skipped when it is above the floor and the item's
`maxStack` is falsy, or when it is above the floor and unsupported. -/
def spaceExcluded (space : Space) (item : Item) (packedItems : List PackedItem)
    (boxWidth boxDepth : ℚ) : Bool :=
  if space.y > 0 ∧ ¬item.maxStack.truthy then true
  else if space.y > 0 then !checkIfSpaceHasSupport space packedItems boxWidth boxDepth
  else false

/-- Is the new candidate better than the current best
(`score < bestScore`, with `bestScore` initially `Infinity`)? -/
def betterScore (score : ℚ) : Option Candidate → Bool
  | none => true
  | some best => decide (score < best.score)

/-- The body of the orientation loop of the placement search (`packer.ts`
lines 116-158): if the orientation fits the space, keeps the item inside
the box, and produces no collision, score it and keep it when it beats the
current best. -/
def considerOrientation (sqrtFn : ℚ → ℚ) (boxWidth boxHeight boxDepth : ℚ)
    (packedItems : List PackedItem) (sIdx : ℕ) (space : Space)
    (best : Option Candidate) (orientation : Orientation) : Option Candidate :=
  if decide (orientation.width ≤ space.width) &&
     decide (orientation.height ≤ space.height) &&
     decide (orientation.depth ≤ space.depth) &&
     decide (space.x + orientation.width ≤ boxWidth) &&
     decide (space.y + orientation.height ≤ boxHeight) &&
     decide (space.z + orientation.depth ≤ boxDepth) &&
     !checkCollisionPrecise space.x space.y space.z
        orientation.width orientation.height orientation.depth packedItems then
    let score := calculatePlacementScore sqrtFn space orientation
      boxWidth boxHeight boxDepth packedItems
    if betterScore score best then
      some ⟨score, sIdx, orientation, space.x, space.y, space.z⟩
    else best
  else best

/-- The orientation loop of the placement search for one space. -/
def considerSpace (sqrtFn : ℚ → ℚ) (boxWidth boxHeight boxDepth : ℚ)
    (packedItems : List PackedItem) (sIdx : ℕ) (space : Space)
    (orientations : List Orientation) (best0 : Option Candidate) : Option Candidate :=
  orientations.foldl (considerOrientation sqrtFn boxWidth boxHeight boxDepth
    packedItems sIdx space) best0

/-- The body of the space loop of the placement search (`packer.ts` lines
98-159): skip spaces excluded by the gravity guard, otherwise search the
space's orientations. -/
def considerIndexedSpace (sqrtFn : ℚ → ℚ) (boxWidth boxHeight boxDepth : ℚ)
    (packedItems : List PackedItem) (item : Item) (orientations : List Orientation)
    (best : Option Candidate) (p : ℕ × Space) : Option Candidate :=
  if spaceExcluded p.2 item packedItems boxWidth boxDepth then best
  else considerSpace sqrtFn boxWidth boxHeight boxDepth packedItems p.1 p.2
    orientations best

/-- The space loop of the placement search (`packer.ts` lines 98-159):
scan every space in order, skipping excluded ones, and keep the global
best-scoring feasible `(space, orientation)` pair. -/
def findBestPlacement (sqrtFn : ℚ → ℚ) (boxWidth boxHeight boxDepth : ℚ)
    (packedItems : List PackedItem) (item : Item) (orientations : List Orientation)
    (spaces : List Space) : Option Candidate :=
  spaces.enum.foldl (considerIndexedSpace sqrtFn boxWidth boxHeight boxDepth
    packedItems item orientations) none

/-- The packed item committed for instance `i` of `item` at the best
candidate (`packer.ts` lines 178-186): the item's fields spread into a new
record, with the id suffixed by the instance index, the dimensions replaced
by the chosen orientation's, and the center position computed from the
space corner (`packer.ts` lines 173-175). -/
def mkPackedItem (item : Item) (i : ℕ) (best : Candidate) : PackedItem :=
  { toItem := { item with
      id := item.id ++ "-" ++ toString i,
      width := best.orientation.width,
      height := best.orientation.height,
      depth := best.orientation.depth },
    position := ⟨best.posX + best.orientation.width / 2,
                 best.posY + best.orientation.height / 2,
                 best.posZ + best.orientation.depth / 2⟩,
    rotation := best.orientation.rotation }

/-- The per-call state of `packItems` (`packer.ts` lines 34-36, 67-79). -/
structure PackState where
  spaces : List Space
  packedItems : List PackedItem
  unpackedItems : List Item
  packingInstructions : List String
  totalVolume : ℚ
  itemCounter : ℕ
deriving DecidableEq

/-- One iteration of the instance loop of `packItems` (`packer.ts` lines
83-221): search for the best placement of instance `i` of `item`; on
success (and after the commit-time double check of lines 166-171) commit
the placement, split the consumed space and run the cleanup; otherwise
append the item with quantity 1 to the unpacked list. -/
def packInstance (sqrtFn : ℚ → ℚ) (box : BoxDimensions) (item : Item) (st : PackState)
    (i : ℕ) : PackState :=
  let orientations := getPossibleOrientations item
  let itemVolume := item.width * item.height * item.depth
  match findBestPlacement sqrtFn box.width box.height box.depth st.packedItems item
      orientations st.spaces with
  | some best =>
    if decide (best.posX + best.orientation.width ≤ box.width) &&
       decide (best.posY + best.orientation.height ≤ box.height) &&
       decide (best.posZ + best.orientation.depth ≤ box.depth) &&
       decide (best.posX ≥ 0) && decide (best.posY ≥ 0) && decide (best.posZ ≥ 0) then
      let packedItem := mkPackedItem item i best
      let rotationText := getRotationText best.orientation.rotation
      let instruction :=
        toString st.itemCounter ++ ". Place " ++ item.name ++ " at position (" ++
        toString (jsRound best.posX) ++ "cm, " ++ toString (jsRound best.posY) ++ "cm, " ++
        toString (jsRound best.posZ) ++ "cm)" ++
        (if rotationText ≠ "" then " " ++ rotationText else "") ++ "."
      let consumed := st.spaces.getD best.spaceIdx default
      let newSpaces := splitSpaceImproved consumed best.posX best.posY best.posZ
        best.orientation.width best.orientation.height best.orientation.depth
      let spliced := st.spaces.take best.spaceIdx ++ newSpaces ++
        st.spaces.drop (best.spaceIdx + 1)
      { spaces := cleanupSpacesImproved spliced,
        packedItems := st.packedItems ++ [packedItem],
        unpackedItems := st.unpackedItems,
        packingInstructions := st.packingInstructions ++ [instruction],
        totalVolume := st.totalVolume + itemVolume,
        itemCounter := st.itemCounter + 1 }
    else
      { st with unpackedItems := st.unpackedItems ++ [{ item with quantity := 1 }] }
  | none =>
    { st with unpackedItems := st.unpackedItems ++ [{ item with quantity := 1 }] }

/-- `packItems` (`packer.ts` lines 12-234).  `options` defaults to
`{allowRotation: true, allowStacking: true}` and then overwrites every
item's `allowRotation` and `maxStack`; items are deep-copied, sorted
largest-volume first, and packed one instance at a time.  `sqrtFn` stands
for `Math.sqrt` (see the file header). -/
def packItems (sqrtFn : ℚ → ℚ) (box : BoxDimensions) (items : List Item)
    (options : Option OptimizeOptions) : PackingResult :=
  let packingOptions := options.getD ⟨true, true⟩
  let itemsToProcess := items.map fun item =>
    { item with
      allowRotation := some packingOptions.allowRotation,
      maxStack := .bool packingOptions.allowStacking }
  let sortedItems := List.insertionSort itemSortLE itemsToProcess
  let boxVolume := box.width * box.height * box.depth
  let initState : PackState :=
    { spaces := [⟨0, 0, 0, box.width, box.height, box.depth⟩],
      packedItems := [], unpackedItems := [], packingInstructions := [],
      totalVolume := 0, itemCounter := 1 }
  let finalState := sortedItems.foldl
    (fun st item => (List.range item.quantity).foldl (packInstance sqrtFn box item) st)
    initState
  { success := decide (finalState.packedItems.length > 0),
    packedItems := finalState.packedItems,
    unpackedItems := finalState.unpackedItems,
    utilizationPercentage := min (finalState.totalVolume / boxVolume * 100) 100,
    packingInstructions := finalState.packingInstructions,
    boxDimensions := box }

/-! ## `optimalBoxFinder.ts` -/

/-- Total item volume `Σ w·h·d·quantity` (`optimalBoxFinder.ts` lines
21-23 and 101-102). -/
def totalItemsVolume (items : List Item) : ℚ :=
  items.foldl (fun total item => total + item.width * item.height * item.depth * item.quantity) 0

/-- The per-axis maximum usable item dimensions (`optimalBoxFinder.ts`
lines 26-43): all three dimensions count on every axis when the item may
rotate, otherwise its own axis-specific dimensions. -/
def maxItemDims (items : List Item) (options : Option OptimizeOptions) : ℚ × ℚ × ℚ :=
  items.foldl
    (fun acc item =>
      let canRotate :=
        (match options with | some o => o.allowRotation | none => false) ||
        (decide (item.allowRotation ≠ some false) &&
         (match options with | some o => o.allowRotation | none => true))
      if canRotate then
        let m := max item.width (max item.height item.depth)
        (max acc.1 m, max acc.2.1 m, max acc.2.2 m)
      else
        (max acc.1 item.width, max acc.2.1 item.height, max acc.2.2 item.depth))
    (0, 0, 0)

/-- The initial box estimate of `findOptimalBoxSize` (`optimalBoxFinder.ts`
lines 45-75): cube root of `totalVolume × 1.3` per axis, floored by the
maximum usable item dimension, then biased toward a height:width ratio of
0.7, each dimension finally rounded up.  `cbrtFn` stands for `Math.cbrt`
(see the file header). -/
def initialBoxFor (cbrtFn : ℚ → ℚ) (items : List Item) (options : Option OptimizeOptions) :
    BoxDimensions :=
  let dims := maxItemDims items options
  let bufferFactor : ℚ := 13/10
  let cubeRoot := cbrtFn (totalItemsVolume items * bufferFactor)
  let initialWidth := max cubeRoot dims.1
  let initialHeight := max cubeRoot dims.2.1
  let initialDepth := max cubeRoot dims.2.2
  let targetRatio : ℚ := 7/10
  if initialHeight > initialWidth * targetRatio ∧ dims.2.1 ≤ initialWidth * targetRatio then
    let excessHeight := initialHeight - initialWidth * targetRatio
    let depth2 := initialDepth + excessHeight * (7/10)
    let width2 := initialWidth + excessHeight * (3/10)
    let height2 := width2 * targetRatio
    ⟨jsCeil width2, jsCeil height2, jsCeil depth2⟩
  else
    ⟨jsCeil initialWidth, jsCeil initialHeight, jsCeil initialDepth⟩

/-- One growth step of `findOptimalBoxSize` (`optimalBoxFinder.ts` lines
87-93): every dimension grown by 10% and rounded up. -/
def growBox (box : BoxDimensions) : BoxDimensions :=
  ⟨jsCeil (box.width * (11/10)), jsCeil (box.height * (11/10)),
   jsCeil (box.depth * (11/10))⟩

/-- The growth loop of `findOptimalBoxSize` (`optimalBoxFinder.ts` lines
81-96): while items remain unpacked and attempts remain (at most 15), grow
every dimension by 10% (rounded up) and re-pack. -/
def growthLoop (sqrtFn : ℚ → ℚ) (items : List Item) (options : Option OptimizeOptions) :
    ℕ → BoxDimensions → PackingResult → PackingResult
  | 0, _, res => res
  | n + 1, box, res =>
    if res.unpackedItems.length > 0 then
      let box' := growBox box
      growthLoop sqrtFn items options n box' (packItems sqrtFn box' items options)
    else res

/-- The box used by the `k`-th packing attempt of the growth phase: the
base box grown `k` times. -/
def grownBox : ℕ → BoxDimensions → BoxDimensions
  | 0, box => box
  | k + 1, box => grownBox k (growBox box)

/-- `findOptimalBoxSize` (`optimalBoxFinder.ts` lines 5-131): short-circuit
on an empty item list; otherwise pack the initial estimate, run the growth
loop, and if items still remain unpacked fall back to a generously
buffered box (and one further ×1.5 enlargement).  The result of the last
packing attempt is returned as-is. -/
def findOptimalBoxSize (sqrtFn cbrtFn : ℚ → ℚ) (items : List Item)
    (options : Option OptimizeOptions) : PackingResult :=
  if items = [] then ⟨false, [], [], 0, [], ⟨0, 0, 0⟩⟩
  else
    let dims := maxItemDims items options
    let box0 := initialBoxFor cbrtFn items options
    let res0 := packItems sqrtFn box0 items options
    let res1 := growthLoop sqrtFn items options 15 box0 res0
    if res1.unpackedItems.length > 0 then
      let finalBuffer : ℚ := 5/2
      let finalCubeRoot := cbrtFn (totalItemsVolume items * finalBuffer)
      let finalBox : BoxDimensions :=
        ⟨max (jsCeil finalCubeRoot) (dims.1 * 2),
         max (jsCeil (finalCubeRoot * (7/10))) (dims.2.1 * 2),
         max (jsCeil finalCubeRoot) (dims.2.2 * 2)⟩
      let res2 := packItems sqrtFn finalBox items options
      if res2.unpackedItems.length > 0 then
        let extremeBox : BoxDimensions :=
          ⟨jsCeil (finalBox.width * (3/2)), jsCeil (finalBox.height * (3/2)),
           jsCeil (finalBox.depth * (3/2))⟩
        packItems sqrtFn extremeBox items options
      else res2
    else res1

/-! ## Verification predicates and concrete instances -/

/-- The sequence of packing attempts made by the growth phase of
`findOptimalBoxSize`, starting from base box `box` and initial attempt
`res`: attempt `0` is `res` (the packing of the base box), and attempt
`k+1` packs the base box grown `k+1` times. -/
def growthAttempt (sqrtFn : ℚ → ℚ) (items : List Item)
    (options : Option OptimizeOptions) (box : BoxDimensions)
    (res : PackingResult) : ℕ → PackingResult
  | 0 => res
  | k + 1 => packItems sqrtFn (grownBox (k + 1) box) items options

/-- The claimed bounds invariant: the packed item's axis-aligned box, centred
at `position` with the item's extents, lies inside `[0,width]×[0,height]×[0,depth]`. -/
def InBounds (box : BoxDimensions) (p : PackedItem) : Prop :=
  (0 ≤ p.position.x - p.width / 2 ∧ p.position.x + p.width / 2 ≤ box.width) ∧
  (0 ≤ p.position.y - p.height / 2 ∧ p.position.y + p.height / 2 ≤ box.height) ∧
  (0 ≤ p.position.z - p.depth / 2 ∧ p.position.z + p.depth / 2 ≤ box.depth)

/-- The candidate box (corner `(x,y,z)`, extents `(w,h,d)`) penetrates the
packed item `q` beyond the `0.001` tolerance on all three axes: on each axis
the candidate's interval strictly overlaps `q`'s interval shrunk by the
tolerance at both ends.  This is the per-item test of
`checkCollisionPrecise` (`placementScorer.ts` lines 36-40), stated as a
proposition. -/
def collidesBeyondTolerance (x y z w h d : ℚ) (q : PackedItem) : Prop :=
  x < pMaxX q - 1/1000 ∧ pMinX q + 1/1000 < x + w ∧
  y < pMaxY q - 1/1000 ∧ pMinY q + 1/1000 < y + h ∧
  z < pMaxZ q - 1/1000 ∧ pMinZ q + 1/1000 < z + d

/-- Two packed items' bounding boxes overlap beyond the `0.001` collision
tolerance on all three axes simultaneously. -/
def overlapsBeyondTolerance (p q : PackedItem) : Prop :=
  pMinX p < pMaxX q - 1/1000 ∧ pMinX q + 1/1000 < pMaxX p ∧
  pMinY p < pMaxY q - 1/1000 ∧ pMinY q + 1/1000 < pMaxY p ∧
  pMinZ p < pMaxZ q - 1/1000 ∧ pMinZ q + 1/1000 < pMaxZ p

/-- What the placement search guarantees about a returned candidate: its
orientation is one of the enumerated ones, and it passed the collision
check against the packed items as they were during the search. -/
def CandSpec (packed : List PackedItem) (orientations : List Orientation)
    (c : Candidate) : Prop :=
  c.orientation ∈ orientations ∧
  checkCollisionPrecise c.posX c.posY c.posZ c.orientation.width c.orientation.height
    c.orientation.depth packed = false

/-- The claimed property of every sub-space `s` produced by splitting
`space` around the placed region (corner `(itemX,itemY,itemZ)`, extents
`(w,h,d)`): `s` is contained in `space`, all three of its extents are at
least `0.5`, and its interior is disjoint from the placed region. -/
def SplitSpec (space : Space) (itemX itemY itemZ w h d : ℚ) (s : Space) : Prop :=
  (space.x ≤ s.x ∧ s.x + s.width ≤ space.x + space.width ∧
   space.y ≤ s.y ∧ s.y + s.height ≤ space.y + space.height ∧
   space.z ≤ s.z ∧ s.z + s.depth ≤ space.z + space.depth) ∧
  (1/2 ≤ s.width ∧ 1/2 ≤ s.height ∧ 1/2 ≤ s.depth) ∧
  ¬ (s.x < itemX + w ∧ itemX < s.x + s.width ∧ s.y < itemY + h ∧
     itemY < s.y + s.height ∧ s.z < itemZ + d ∧ itemZ < s.z + s.depth)

/-- The number of item instances a state accounts for: packed instances
plus the quantities of the unpacked entries. -/
def instanceTally (st : PackState) : ℕ :=
  st.packedItems.length + (st.unpackedItems.map Item.quantity).sum

/-- Stand-in for `Math.sqrt` in concrete instantiations.  On every concrete
run below at most one item instance is placed, so the placement scorer's
distance fold ranges over an empty packed-item list and `Math.sqrt` is never
evaluated; `packItems_sqrt_irrelevant` proves that any stand-in yields the
same result on such runs. -/
def sqrtStub : ℚ → ℚ := fun _ => 0

/-- Stand-in for `Math.cbrt` in concrete instantiations, with
`cbrtStub q = 10.92` for every argument.  The only use below applies it to
`1000 × 1.3 = 1300`, and `Math.cbrt 1300 = 10.9139…`; every value in the
interval `(10, 11]` produces the identical initial box `11×11×11`
(`Math.ceil` of the estimate), so the stand-in is faithful to the
floating-point computation on that input. -/
def cbrtStub : ℚ → ℚ := fun _ => 273/25

/-- Scenario 1's single item: a `20×20×20` cube, quantity 1. -/
def scenario1Item : Item :=
  { id := "item", name := "item", width := 20, height := 20, depth := 20,
    quantity := 1, weight := 1, maxStack := .bool true, color := "red",
    allowRotation := some true }

/-- A `20×10×10` item declaring `allowRotation: false`, quantity 1. -/
def c4Item : Item :=
  { id := "a", name := "a", width := 20, height := 10, depth := 10,
    quantity := 1, weight := 1, maxStack := .bool true, color := "red",
    allowRotation := some false }

/-- A single `10×10×10` cube, quantity 1, used against the optimal-box
search. -/
def c5Item : Item :=
  { id := "c", name := "c", width := 10, height := 10, depth := 10,
    quantity := 1, weight := 1, maxStack := .bool true, color := "red",
    allowRotation := some true }

/-- Two `10×10×10` cubes (one item, quantity 2), used to exercise a
mid-loop first fit of the optimal-box search: two such cubes need 20 units
along some axis, so the initial `14×14×14` estimate and the first two
grown boxes (`16³`, `18³`) each leave one cube unpacked, and the third
grown box (`20³`) is the first to pack both. -/
def c5PairItem : Item :=
  { id := "c", name := "c", width := 10, height := 10, depth := 10,
    quantity := 2, weight := 1, maxStack := .bool true, color := "red",
    allowRotation := some true }

/-- Stand-in for `Math.cbrt` in the two-cube instantiation, with value
`13.75` for every argument.  The only use applies it to
`2000 × 1.3 = 2600`, and `Math.cbrt 2600 = 13.7507…`; every value in the
interval `(13, 100/7)` produces the identical initial box `14×14×14`, so
the stand-in is faithful to the floating-point computation on that
input. -/
def cbrtStub2 : ℚ → ℚ := fun _ => 55/4

/-- An above-floor free space (`y = 5`) in a `10`-wide box. -/
def c6Space : Space := ⟨0, 5, 0, 10, 10, 10⟩

/-- A stackable item (`maxStack = true`). -/
def c6StackableItem : Item :=
  { id := "s", name := "s", width := 4, height := 4, depth := 4,
    quantity := 1, weight := 1, maxStack := .bool true, color := "red",
    allowRotation := some true }

/-- A packed item centred at `(30,10,10)` with extents `20×20×20`, so its
minimum-x face is at `x = 20`. -/
def c7Neighbor : PackedItem :=
  { toItem :=
      { id := "n", name := "n", width := 20, height := 20, depth := 20,
        quantity := 1, weight := 1, maxStack := .bool true, color := "red",
        allowRotation := some true },
    position := ⟨30, 10, 10⟩, rotation := ⟨0, 0, 0⟩ }

/-- The packed item produced by Scenario 1 (C8): the cube placed at corner
`(0,0,0)`, centre `(10,10,10)`, unrotated, with the per-item flags
overwritten by the default global options. -/
def scenario1Packed : PackedItem :=
  { toItem :=
      { id := "item-0", name := "item", width := 20, height := 20, depth := 20,
        quantity := 1, weight := 1, maxStack := .bool true, color := "red",
        allowRotation := some true },
    position := ⟨10, 10, 10⟩, rotation := ⟨0, 0, 0⟩ }

/-! ## Helper lemmas -/

theorem foldl_preserve {α β : Type _} (P : β → Prop) (f : β → α → β) :
    ∀ (l : List α) (init : β), P init → (∀ b, ∀ a ∈ l, P b → P (f b a)) →
      P (l.foldl f init)
  | [], init, h0, _ => h0
  | x :: xs, init, h0, hf =>
    foldl_preserve P f xs (f init x) (hf init x (List.mem_cons_self x xs) h0)
      fun b a ha hb => hf b a (List.mem_cons_of_mem x ha) hb

/-- With no packed items, the placement scorer never evaluates its `sqrtFn`
parameter (the proximity fold ranges over the empty list). -/
theorem calculatePlacementScore_sqrt_irrel (f g : ℚ → ℚ) (space : Space)
    (orientation : Orientation) (bw bh bd : ℚ) :
    calculatePlacementScore f space orientation bw bh bd [] =
      calculatePlacementScore g space orientation bw bh bd [] := by
  simp only [calculatePlacementScore, List.foldl_nil, List.any_nil]

theorem considerOrientation_sqrt_irrel (f g : ℚ → ℚ) (bw bh bd : ℚ) (sIdx : ℕ)
    (space : Space) (best : Option Candidate) (o : Orientation) :
    considerOrientation f bw bh bd [] sIdx space best o =
      considerOrientation g bw bh bd [] sIdx space best o := by
  simp only [considerOrientation]
  rw [calculatePlacementScore_sqrt_irrel f g]

theorem considerSpace_sqrt_irrel (f g : ℚ → ℚ) (bw bh bd : ℚ) (sIdx : ℕ)
    (space : Space) (orientations : List Orientation) :
    ∀ best, considerSpace f bw bh bd [] sIdx space orientations best =
      considerSpace g bw bh bd [] sIdx space orientations best := by
  induction orientations with
  | nil => intro best; rfl
  | cons o os ih =>
    intro best
    show List.foldl _ _ (o :: os) = List.foldl _ _ (o :: os)
    rw [List.foldl_cons, List.foldl_cons, considerOrientation_sqrt_irrel f g]
    exact ih _

theorem findBestPlacement_sqrt_irrel (f g : ℚ → ℚ) (bw bh bd : ℚ) (item : Item)
    (orientations : List Orientation) (spaces : List Space) :
    findBestPlacement f bw bh bd [] item orientations spaces =
      findBestPlacement g bw bh bd [] item orientations spaces := by
  unfold findBestPlacement
  generalize (none : Option Candidate) = best
  induction spaces.enum generalizing best with
  | nil => rfl
  | cons p ps ih =>
    rw [List.foldl_cons, List.foldl_cons]
    have hstep : considerIndexedSpace f bw bh bd [] item orientations best p =
        considerIndexedSpace g bw bh bd [] item orientations best p := by
      simp only [considerIndexedSpace]
      rw [considerSpace_sqrt_irrel f g]
    rw [hstep]
    exact ih _

/-- One packing step from a state with no packed items is independent of the
`Math.sqrt` stand-in. -/
theorem packInstance_sqrt_irrel (f g : ℚ → ℚ) (box : BoxDimensions) (item : Item)
    (st : PackState) (i : ℕ) (h : st.packedItems = []) :
    packInstance f box item st i = packInstance g box item st i := by
  simp only [packInstance, h]
  rw [findBestPlacement_sqrt_irrel f g]

/-- `packItems` on a single item of quantity at most one never evaluates its
`Math.sqrt` stand-in: the only placement is scored against an empty
packed-item list. -/
theorem packItems_sqrt_irrelevant (f g : ℚ → ℚ) (box : BoxDimensions) (item : Item)
    (options : Option OptimizeOptions) (h : item.quantity ≤ 1) :
    packItems f box [item] options = packItems g box [item] options := by
  have hfold : ∀ (it : Item) (st : PackState), st.packedItems = [] → it.quantity ≤ 1 →
      List.foldl (packInstance f box it) st (List.range it.quantity) =
        List.foldl (packInstance g box it) st (List.range it.quantity) := by
    intro it st hst hle
    rcases Nat.le_one_iff_eq_zero_or_eq_one.1 hle with h0 | h1
    · simp [h0]
    · simp only [h1, List.range_succ, List.range_zero, List.nil_append,
        List.foldl_cons, List.foldl_nil]
      exact packInstance_sqrt_irrel f g box it st 0 hst
  have heq := hfold
    { item with
      allowRotation := some (options.getD ⟨true, true⟩).allowRotation,
      maxStack := .bool (options.getD ⟨true, true⟩).allowStacking }
    ⟨[⟨0, 0, 0, box.width, box.height, box.depth⟩], [], [], [], 0, 1⟩ rfl h
  unfold packItems
  simp only [List.map_cons, List.map_nil, List.insertionSort, List.orderedInsert,
    List.foldl_cons, List.foldl_nil]
  simp only [heq]

/-!
Batteries marks `Rat.add`, `Rat.mul`, `Rat.inv` and `Rat.sub` irreducible,
which stops the elaborator's evaluator (not the kernel) from computing with
rational literals; the concrete evaluations below need it restored. -/
attribute [local semireducible] Rat.add Rat.mul Rat.inv Rat.sub

/-! ## Claim theorems -/

/-- C9: `findOptimalBoxSize` applied to an empty item list returns the
explicit empty result `{success: false, packedItems: [], unpackedItems: [],
utilizationPercentage: 0, packingInstructions: [], boxDimensions:
{width: 0, height: 0, depth: 0}}` without invoking the packer: the equality
holds for every `Math.sqrt` / `Math.cbrt` stand-in, so no packing attempt
influences the result. -/
theorem findOptimalBoxSize_empty (sqrtFn cbrtFn : ℚ → ℚ)
    (options : Option OptimizeOptions) :
    findOptimalBoxSize sqrtFn cbrtFn [] options =
      ⟨false, [], [], 0, [], ⟨0, 0, 0⟩⟩ := rfl

/-- C6 counterexample: the claim says a space is excluded from the search
iff it is above floor level AND the item cannot be stacked AND no support
exists.  The packer's guard (`packer.ts` lines 101-114) disagrees: for a
stackable item (`maxStack = true`) over an above-floor space with no
support (no packed items at all), the guard excludes the space although the
claim's three-way conjunction is false (the item CAN be stacked). -/
theorem spaceExcluded_counterexample :
    ¬ (spaceExcluded c6Space c6StackableItem [] 100 100 = true ↔
        (c6Space.y > 0 ∧ canItemBeStacked c6StackableItem.maxStack = false ∧
         checkIfSpaceHasSupport c6Space [] 100 100 = false)) := by decide

/-- C6 (amended): a `FreeSpace` is excluded from the placement search of
`packItems` if and only if it is above floor level (`y > 0`) and EITHER the
item's `maxStack` is falsy (regardless of support) OR no already-placed
stackable item supports the space.  In particular an above-floor space that
is supported is still skipped when the item cannot be stacked, and an
unsupported above-floor space is skipped even for stackable items. -/
theorem spaceExcluded_iff (space : Space) (item : Item) (packed : List PackedItem)
    (bw bd : ℚ) :
    spaceExcluded space item packed bw bd = true ↔
      (0 < space.y ∧ (item.maxStack.truthy = false ∨
        checkIfSpaceHasSupport space packed bw bd = false)) := by
  unfold spaceExcluded
  by_cases h1 : space.y > 0 ∧ ¬item.maxStack.truthy
  · rw [if_pos h1]
    simp only [true_iff, iff_true]
    exact ⟨h1.1, Or.inl (by simpa using h1.2)⟩
  · rw [if_neg h1]
    by_cases h2 : space.y > 0
    · rw [if_pos h2]
      have h3 : item.maxStack.truthy = true := by
        by_contra hne
        exact h1 ⟨h2, by simpa using hne⟩
      simp [h2, h3, Bool.not_eq_true']
    · rw [if_neg h2]
      simp [h2]

/-- C7: `checkCollisionPrecise` reports a collision iff some packed item's
bounding box overlaps the candidate beyond the `0.001` tolerance on all
three axes — formalised as the candidate's interval strictly overlapping
the packed item's interval shrunk by the tolerance at both ends, per axis
(`collidesBeyondTolerance`) — and, in particular, a candidate that exactly
shares a face with a packed item on any axis does not collide with it, so
face-to-face touching placements are not reported as collisions. -/
theorem checkCollisionPrecise_iff (x y z w h d : ℚ) (packed : List PackedItem) :
    (checkCollisionPrecise x y z w h d packed = true ↔
      ∃ q ∈ packed, collidesBeyondTolerance x y z w h d q) ∧
    (∀ q : PackedItem,
      (x + w = pMinX q ∨ pMaxX q = x ∨ y + h = pMinY q ∨ pMaxY q = y ∨
        z + d = pMinZ q ∨ pMaxZ q = z) →
      ¬ collidesBeyondTolerance x y z w h d q) := by
  constructor
  · unfold checkCollisionPrecise collidesBeyondTolerance
    simp [List.any_eq_true, and_assoc]
  · rintro q hq ⟨c1, c2, c3, c4, c5, c6⟩
    rcases hq with he | he | he | he | he | he <;> linarith

/-- Witness for C7: a `20×20×20` candidate at the origin exactly shares its
`x = 20` face with `c7Neighbor` (whose minimum-x face is at `20`) and is
not in collision with it. -/
theorem checkCollisionPrecise_iff_witness :
    ¬ collidesBeyondTolerance 0 0 0 20 20 20 c7Neighbor :=
  (checkCollisionPrecise_iff 0 0 0 20 20 20 [c7Neighbor]).2 c7Neighbor
    (Or.inl (by decide))

/-- The growth loop stops at the first fitting attempt: if attempts
`0, …, k-1` each leave items unpacked and attempt `k` (with `k` within the
fuel) leaves nothing unpacked, the loop returns attempt `k` unchanged. -/
theorem growthLoop_first_fit (sqrtFn : ℚ → ℚ) (items : List Item)
    (options : Option OptimizeOptions) :
    ∀ (n k : ℕ) (box : BoxDimensions) (res : PackingResult), k ≤ n →
      (∀ j < k, (growthAttempt sqrtFn items options box res j).unpackedItems ≠ []) →
      (growthAttempt sqrtFn items options box res k).unpackedItems = [] →
      growthLoop sqrtFn items options n box res =
        growthAttempt sqrtFn items options box res k := by
  intro n
  induction n with
  | zero =>
    intro k box res hk _ _
    have hk0 : k = 0 := Nat.le_zero.1 hk
    subst hk0
    rfl
  | succ n ih =>
    intro k box res hk hbefore hfit
    cases k with
    | zero =>
      have hres : res.unpackedItems = [] := hfit
      simp [growthLoop, hres, growthAttempt]
    | succ k =>
      have h0 : res.unpackedItems ≠ [] := hbefore 0 (Nat.succ_pos k)
      have hlen : res.unpackedItems.length > 0 := List.length_pos.2 h0
      have hshift : ∀ j, growthAttempt sqrtFn items options (growBox box)
          (packItems sqrtFn (growBox box) items options) j =
          growthAttempt sqrtFn items options box res (j + 1) := by
        intro j
        cases j with
        | zero => rfl
        | succ j => rfl
      have hstep : growthLoop sqrtFn items options (n + 1) box res =
          growthLoop sqrtFn items options n (growBox box)
            (packItems sqrtFn (growBox box) items options) := by
        simp [growthLoop, hlen]
      rw [hstep,
        ih k (growBox box) (packItems sqrtFn (growBox box) items options)
          (Nat.le_of_succ_le_succ hk)
          (fun j hj => by rw [hshift j]; exact hbefore (j + 1) (Nat.succ_lt_succ hj))
          (by rw [hshift k]; exact hfit),
        hshift k]

/-- C5 (amended): the shipped `findOptimalBoxSize` performs NO aspect-ratio
perturbation and NO shrink pass.  Whenever the growth phase reaches, at any
iteration `k ≤ 15` (the initial volume-estimate box being attempt `0`), a
box whose packing leaves nothing unpacked — every earlier attempt having
left items unpacked — the loop stops there and that packing result is
returned unchanged: the returned box is the first fitting box found, never
a shrunken one.  (A shrink pass exists only in a superseded revision of
the service that is not the shipped `optimalBoxFinder.ts` /
`packingService.ts` code.) -/
theorem findOptimalBoxSize_returns_first_fit (sqrtFn cbrtFn : ℚ → ℚ)
    (items : List Item) (options : Option OptimizeOptions) (hne : items ≠ [])
    (k : ℕ) (hk : k ≤ 15)
    (hbefore : ∀ j < k, (growthAttempt sqrtFn items options
        (initialBoxFor cbrtFn items options)
        (packItems sqrtFn (initialBoxFor cbrtFn items options) items options)
        j).unpackedItems ≠ [])
    (hfit : (growthAttempt sqrtFn items options (initialBoxFor cbrtFn items options)
        (packItems sqrtFn (initialBoxFor cbrtFn items options) items options)
        k).unpackedItems = []) :
    findOptimalBoxSize sqrtFn cbrtFn items options =
      growthAttempt sqrtFn items options (initialBoxFor cbrtFn items options)
        (packItems sqrtFn (initialBoxFor cbrtFn items options) items options) k := by
  have hloop := growthLoop_first_fit sqrtFn items options 15 k
    (initialBoxFor cbrtFn items options)
    (packItems sqrtFn (initialBoxFor cbrtFn items options) items options)
    hk hbefore hfit
  simp only [findOptimalBoxSize, if_neg hne]
  rw [hloop]
  simp [hfit]

set_option maxHeartbeats 8000000 in
set_option maxRecDepth 65536 in
/-- Witness for C5 (amended), exercising a mid-loop first fit: two
`10×10×10` cubes do not fit the initial `14×14×14` estimate nor the grown
`16³` and `18³` boxes, and the third grown box `20³` is the first to pack
both; `findOptimalBoxSize` returns exactly that attempt-3 packing. -/
theorem findOptimalBoxSize_returns_first_fit_witness :
    findOptimalBoxSize sqrtStub cbrtStub2 [c5PairItem] none =
      growthAttempt sqrtStub [c5PairItem] none
        (initialBoxFor cbrtStub2 [c5PairItem] none)
        (packItems sqrtStub (initialBoxFor cbrtStub2 [c5PairItem] none)
          [c5PairItem] none) 3 :=
  findOptimalBoxSize_returns_first_fit sqrtStub cbrtStub2 [c5PairItem] none
    (by decide) 3 (by decide)
    (by intro j hj
        interval_cases j
        · decide
        · decide
        · decide)
    (by decide)

/-- C5 counterexample: for a single `10×10×10` cube the function returns
the first fitting box `11×11×11` even though the spec's first shrink step
(`max(maxItemDim, ⌊11 × 0.98⌋) = 10` per axis) yields the strictly smaller
box `10×10×10` that still packs every item — so no shrink pass ran and the
returned box is not the smallest box found by shrinking. -/
theorem findOptimalBoxSize_shrink_counterexample :
    (findOptimalBoxSize sqrtStub cbrtStub [c5Item] none).boxDimensions =
      ⟨11, 11, 11⟩ ∧
    (packItems sqrtStub ⟨10, 10, 10⟩ [c5Item] none).unpackedItems = [] ∧
    max (10 : ℚ) (jsFloor ((11 : ℚ) * (98/100))) = 10 ∧
    (10 : ℚ) * 10 * 10 < 11 * 11 * 11 :=
  ⟨by decide, by decide, by decide, by decide⟩

set_option maxHeartbeats 4000000 in
/-- C8 (Scenario 1): packing one `20×20×20` item (quantity 1) into a
`100×100×100` box succeeds with exactly one packed item — centre position
`(10,10,10)`, rotation `[0,0,0]`, dimensions unchanged — an empty
unpacked list, and `utilizationPercentage = 0.8`; this holds for every
`Math.sqrt` stand-in, since the single placement is scored against an empty
packed-item list. -/
theorem packItems_scenario1 (sqrtFn : ℚ → ℚ) :
    (packItems sqrtFn ⟨100, 100, 100⟩ [scenario1Item] none).success = true ∧
    (packItems sqrtFn ⟨100, 100, 100⟩ [scenario1Item] none).packedItems =
      [scenario1Packed] ∧
    (packItems sqrtFn ⟨100, 100, 100⟩ [scenario1Item] none).unpackedItems = [] ∧
    (packItems sqrtFn ⟨100, 100, 100⟩ [scenario1Item] none).utilizationPercentage
      = 4/5 := by
  rw [packItems_sqrt_irrelevant sqrtFn sqrtStub _ _ _ (by decide)]
  exact ⟨by decide, by decide, by decide, by decide⟩

set_option maxHeartbeats 4000000 in
/-- C4 (code-bug evidence): with the `options` argument omitted,
`packItems` builds the default options `{allowRotation: true,
allowStacking: true}` and unconditionally overwrites every item's flags
(`packer.ts` lines 13-32), so an item declared `allowRotation: false` is
still rotated.  At the failing input — box `10×20×10`, one `20×10×10` item
with `allowRotation: false` — the item is packed with permuted dimensions
`(10,20,10)` and rotation `[0,0,90]` instead of keeping its declared
dimensions and rotation `[0,0,0]` (which could not fit, so the claim
predicts it unpacked). -/
theorem packItems_overrides_allowRotation (sqrtFn : ℚ → ℚ) :
    (packItems sqrtFn ⟨10, 20, 10⟩ [c4Item] none).packedItems.map
        (fun p => (p.width, p.height, p.depth, p.rotation)) =
      [(10, 20, 10, ⟨0, 0, 90⟩)] ∧
    (packItems sqrtFn ⟨10, 20, 10⟩ [c4Item] none).unpackedItems = [] := by
  rw [packItems_sqrt_irrelevant sqrtFn sqrtStub _ _ _ (by decide)]
  exact ⟨by decide, by decide⟩

/-- C10: when the placed region (corner and extents) lies within the split
space, every sub-space returned by `splitSpaceImproved` is contained in the
original space, has all three extents at least `0.5`, and its interior is
disjoint from the placed region. -/
theorem ite_length_pos {α : Type _} (l : List α) :
    (if l.length > 0 then l else []) = l := by
  split
  · rfl
  · next hc => exact (List.eq_nil_of_length_eq_zero (Nat.eq_zero_of_not_pos hc)).symm

theorem splitSpaceImproved_spec (space : Space) (itemX itemY itemZ w h d : ℚ)
    (hx1 : space.x ≤ itemX) (hy1 : space.y ≤ itemY) (hz1 : space.z ≤ itemZ)
    (hw : 0 ≤ w) (hh : 0 ≤ h) (hd : 0 ≤ d)
    (hx2 : itemX + w ≤ space.x + space.width)
    (hy2 : itemY + h ≤ space.y + space.height)
    (hz2 : itemZ + d ≤ space.z + space.depth) :
    ∀ s ∈ splitSpaceImproved space itemX itemY itemZ w h d,
      SplitSpec space itemX itemY itemZ w h d s := by
  intro s hs
  rw [splitSpaceImproved, ite_length_pos] at hs
  have hs2 := (List.perm_insertionSort volumeDescLE _).mem_iff.1 hs
  rw [List.mem_filter] at hs2
  obtain ⟨hmem, hpred⟩ := hs2
  simp only [Bool.and_eq_true, decide_eq_true_eq, ge_iff_le] at hpred
  obtain ⟨⟨hpw, hph⟩, hpd⟩ := hpred
  simp only [List.mem_append] at hmem
  rcases hmem with ((((hm | hm) | hm) | hm) | hm) | hm <;>
  · split at hm
    · simp only [List.mem_singleton] at hm
      subst hm
      refine ⟨⟨by dsimp only; linarith, by dsimp only; linarith, by dsimp only; linarith,
        by dsimp only; linarith, by dsimp only; linarith, by dsimp only; linarith⟩,
        ⟨by exact_mod_cast hpw, by exact_mod_cast hph, by exact_mod_cast hpd⟩, ?_⟩
      rintro ⟨p1, p2, p3, p4, p5, p6⟩
      dsimp only at p1 p2 p3 p4 p5 p6
      linarith
    · simp at hm

/-- Witness for C10: splitting the `10×10×10` space at origin around a
`4×4×4` item placed at the origin; the `+X` remainder `(4,0,0,6,10,10)` is
a returned sub-space satisfying the specification. -/
theorem splitSpaceImproved_spec_witness :
    SplitSpec ⟨0, 0, 0, 10, 10, 10⟩ 0 0 0 4 4 4 ⟨4, 0, 0, 6, 10, 10⟩ :=
  splitSpaceImproved_spec ⟨0, 0, 0, 10, 10, 10⟩ 0 0 0 4 4 4
    (by norm_num) (by norm_num) (by norm_num) (by norm_num) (by norm_num)
    (by norm_num) (by norm_num) (by norm_num) (by norm_num)
    ⟨4, 0, 0, 6, 10, 10⟩ (by decide)

/-! ## Search-loop and commit-step lemmas -/

theorem considerOrientation_spec (f : ℚ → ℚ) (bw bh bd : ℚ)
    (packed : List PackedItem) (sIdx : ℕ) (space : Space) (ors : List Orientation)
    (best : Option Candidate) (o : Orientation) (ho : o ∈ ors)
    (hbest : ∀ c, best = some c → CandSpec packed ors c) :
    ∀ c, considerOrientation f bw bh bd packed sIdx space best o = some c →
      CandSpec packed ors c := by
  intro c hc
  unfold considerOrientation at hc
  split at hc
  · next hguard =>
    replace hc : (if betterScore (calculatePlacementScore f space o bw bh bd packed)
          best then
        some ⟨calculatePlacementScore f space o bw bh bd packed, sIdx, o,
          space.x, space.y, space.z⟩
        else best) = some c := hc
    split at hc
    · cases hc
      refine ⟨ho, ?_⟩
      simp only [Bool.and_eq_true, Bool.not_eq_true'] at hguard
      exact hguard.2
    · exact hbest c hc
  · exact hbest c hc

theorem considerSpace_spec (f : ℚ → ℚ) (bw bh bd : ℚ) (packed : List PackedItem)
    (sIdx : ℕ) (space : Space) (ors : List Orientation) (best : Option Candidate)
    (hbest : ∀ c, best = some c → CandSpec packed ors c) :
    ∀ c, considerSpace f bw bh bd packed sIdx space ors best = some c →
      CandSpec packed ors c := by
  unfold considerSpace
  exact foldl_preserve (fun b => ∀ c, b = some c → CandSpec packed ors c) _ ors best
    hbest (fun b o ho hb => considerOrientation_spec f bw bh bd packed sIdx space
      ors b o ho hb)

/-- Any candidate returned by the placement search uses one of the
enumerated orientations and passed the collision check against the packed
items of the search. -/
theorem findBestPlacement_spec (f : ℚ → ℚ) (bw bh bd : ℚ)
    (packed : List PackedItem) (item : Item) (ors : List Orientation)
    (spaces : List Space) :
    ∀ c, findBestPlacement f bw bh bd packed item ors spaces = some c →
      CandSpec packed ors c := by
  unfold findBestPlacement
  apply foldl_preserve (fun b => ∀ c, b = some c → CandSpec packed ors c)
  · intro c hc; cases hc
  · intro b p _ hb
    unfold considerIndexedSpace
    split
    · exact hb
    · exact considerSpace_spec f bw bh bd packed p.1 p.2 ors b hb

/-- The commit step of `packItems`, case-analysed: either a feasible best
candidate was found, the commit-time double check passed, and exactly the
corresponding packed item was appended; or the packed list is unchanged and
a quantity-1 copy of the item was appended to the unpacked list. -/
theorem packInstance_cases (f : ℚ → ℚ) (box : BoxDimensions) (item : Item)
    (st : PackState) (i : ℕ) :
    (∃ best, findBestPlacement f box.width box.height box.depth st.packedItems item
        (getPossibleOrientations item) st.spaces = some best ∧
      (best.posX + best.orientation.width ≤ box.width ∧
       best.posY + best.orientation.height ≤ box.height ∧
       best.posZ + best.orientation.depth ≤ box.depth ∧
       0 ≤ best.posX ∧ 0 ≤ best.posY ∧ 0 ≤ best.posZ) ∧
      (packInstance f box item st i).packedItems =
        st.packedItems ++ [mkPackedItem item i best] ∧
      (packInstance f box item st i).unpackedItems = st.unpackedItems) ∨
    ((packInstance f box item st i).packedItems = st.packedItems ∧
     (packInstance f box item st i).unpackedItems =
       st.unpackedItems ++ [{ item with quantity := 1 }]) := by
  rcases hfb : findBestPlacement f box.width box.height box.depth st.packedItems item
      (getPossibleOrientations item) st.spaces with _ | best
  · right
    constructor <;> simp [packInstance, hfb]
  · by_cases hok : (decide (best.posX + best.orientation.width ≤ box.width) &&
        decide (best.posY + best.orientation.height ≤ box.height) &&
        decide (best.posZ + best.orientation.depth ≤ box.depth) &&
        decide (best.posX ≥ 0) && decide (best.posY ≥ 0) &&
        decide (best.posZ ≥ 0)) = true
    · left
      refine ⟨best, rfl, ?_, ?_, ?_⟩
      · simp only [Bool.and_eq_true, decide_eq_true_eq, ge_iff_le] at hok
        exact ⟨hok.1.1.1.1.1, hok.1.1.1.1.2, hok.1.1.1.2, hok.1.1.2, hok.1.2, hok.2⟩
      · simp [packInstance, hfb, hok]
      · simp [packInstance, hfb, hok]
    · right
      constructor <;> simp [packInstance, hfb, hok]

theorem checkCollision_false_spec {x y z w h d : ℚ} {packed : List PackedItem}
    (hcf : checkCollisionPrecise x y z w h d packed = false) :
    ∀ q ∈ packed, ¬ collidesBeyondTolerance x y z w h d q := by
  intro q hq hcol
  unfold checkCollisionPrecise at hcf
  rw [List.any_eq_false] at hcf
  have hne := hcf q hq
  simp only [Bool.and_eq_true, decide_eq_true_eq] at hne
  obtain ⟨h1, h2, h3, h4, h5, h6⟩ := hcol
  exact hne (by tauto)

theorem overlaps_mkPackedItem_iff (item : Item) (i : ℕ) (best : Candidate)
    (q : PackedItem) :
    overlapsBeyondTolerance (mkPackedItem item i best) q ↔
      collidesBeyondTolerance best.posX best.posY best.posZ best.orientation.width
        best.orientation.height best.orientation.depth q := by
  unfold overlapsBeyondTolerance collidesBeyondTolerance mkPackedItem
    pMinX pMaxX pMinY pMaxY pMinZ pMaxZ
  dsimp only
  constructor <;> rintro ⟨h1, h2, h3, h4, h5, h6⟩ <;>
    exact ⟨by linarith, by linarith, by linarith, by linarith, by linarith, by linarith⟩

theorem overlapsBeyondTolerance_symm {p q : PackedItem}
    (h : overlapsBeyondTolerance p q) : overlapsBeyondTolerance q p := by
  unfold overlapsBeyondTolerance at h ⊢
  obtain ⟨h1, h2, h3, h4, h5, h6⟩ := h
  exact ⟨by linarith, by linarith, by linarith, by linarith, by linarith, by linarith⟩

theorem packInstance_preserves_inBounds (f : ℚ → ℚ) (box : BoxDimensions)
    (item : Item) (st : PackState) (i : ℕ)
    (hst : ∀ p ∈ st.packedItems, InBounds box p) :
    ∀ p ∈ (packInstance f box item st i).packedItems, InBounds box p := by
  rcases packInstance_cases f box item st i with
    ⟨best, _, ⟨h1, h2, h3, h4, h5, h6⟩, hpk, _⟩ | ⟨hpk, _⟩
  · rw [hpk]
    intro p hp
    rcases List.mem_append.1 hp with hp | hp
    · exact hst p hp
    · rcases List.mem_singleton.1 hp with rfl
      unfold InBounds mkPackedItem
      dsimp only
      refine ⟨⟨by linarith, by linarith⟩, ⟨by linarith, by linarith⟩,
        ⟨by linarith, by linarith⟩⟩
  · rw [hpk]; exact hst

theorem packInstance_preserves_noOverlap (f : ℚ → ℚ) (box : BoxDimensions)
    (item : Item) (st : PackState) (i : ℕ)
    (hst : List.Pairwise (fun p q => ¬ overlapsBeyondTolerance p q) st.packedItems) :
    List.Pairwise (fun p q => ¬ overlapsBeyondTolerance p q)
      (packInstance f box item st i).packedItems := by
  rcases packInstance_cases f box item st i with
    ⟨best, hfb, _, hpk, _⟩ | ⟨hpk, _⟩
  · rw [hpk, List.pairwise_append]
    refine ⟨hst, List.pairwise_singleton _ _, ?_⟩
    intro a ha b hb
    rcases List.mem_singleton.1 hb with rfl
    have hspec := findBestPlacement_spec f box.width box.height box.depth
      st.packedItems item (getPossibleOrientations item) st.spaces best hfb
    have hnc := checkCollision_false_spec hspec.2 a ha
    intro hov
    exact hnc ((overlaps_mkPackedItem_iff item i best a).1
      (overlapsBeyondTolerance_symm hov))
  · rw [hpk]; exact hst

theorem packInstance_tally (f : ℚ → ℚ) (box : BoxDimensions) (item : Item)
    (st : PackState) (i : ℕ) :
    instanceTally (packInstance f box item st i) = instanceTally st + 1 := by
  unfold instanceTally
  rcases packInstance_cases f box item st i with
    ⟨best, _, _, hpk, hup⟩ | ⟨hpk, hup⟩
  · rw [hpk, hup]
    simp only [List.length_append, List.length_singleton]
    omega
  · rw [hpk, hup]
    simp only [List.map_append, List.sum_append, List.map_cons, List.map_nil,
      List.sum_cons, List.sum_nil]
    omega

theorem packInstance_preserves_unpackedOne (f : ℚ → ℚ) (box : BoxDimensions)
    (item : Item) (st : PackState) (i : ℕ)
    (hst : ∀ u ∈ st.unpackedItems, u.quantity = 1) :
    ∀ u ∈ (packInstance f box item st i).unpackedItems, u.quantity = 1 := by
  rcases packInstance_cases f box item st i with
    ⟨best, _, _, _, hup⟩ | ⟨_, hup⟩ <;> rw [hup]
  · exact hst
  · intro u hu
    rcases List.mem_append.1 hu with hu | hu
    · exact hst u hu
    · rcases List.mem_singleton.1 hu with rfl
      rfl

/-- The packed-count plus unpacked-quantity tally grows by exactly the
total quantity of the processed items. -/
theorem packLoop_tally (f : ℚ → ℚ) (box : BoxDimensions) :
    ∀ (its : List Item) (st0 : PackState),
      instanceTally (its.foldl (fun st item =>
          (List.range item.quantity).foldl (packInstance f box item) st) st0) =
        instanceTally st0 + (its.map Item.quantity).sum := by
  have hinner : ∀ (item : Item) (l : List ℕ) (st : PackState),
      instanceTally (l.foldl (packInstance f box item) st) =
        instanceTally st + l.length := by
    intro item l
    induction l with
    | nil => intro st; simp
    | cons x xs ih =>
      intro st
      rw [List.foldl_cons, ih, packInstance_tally]
      simp only [List.length_cons]
      omega
  intro its
  induction its with
  | nil => intro st0; simp
  | cons x xs ih =>
    intro st0
    rw [List.foldl_cons, ih, hinner]
    simp only [List.map_cons, List.sum_cons, List.length_range]
    omega

/-! ## The claim theorems for the packer invariants -/

/-- C1: for every box with positive dimensions, every item list and every
options value, every `PackedItem` in the result of `packItems` lies
entirely within the box: on each axis, `position - extent/2 ≥ 0` and
`position + extent/2 ≤ boxDimension` (the commit-time double check of
`packer.ts` lines 166-171 enforces this for every committed placement). -/
theorem packItems_bounds (sqrtFn : ℚ → ℚ) (box : BoxDimensions) (items : List Item)
    (options : Option OptimizeOptions)
    (hw : 0 < box.width) (hh : 0 < box.height) (hd : 0 < box.depth) :
    ∀ p ∈ (packItems sqrtFn box items options).packedItems, InBounds box p :=
  fun p hp =>
    foldl_preserve (fun st => ∀ p ∈ st.packedItems, InBounds box p) _
      (List.insertionSort itemSortLE (items.map fun item =>
        { item with
          allowRotation := some (options.getD ⟨true, true⟩).allowRotation,
          maxStack := .bool (options.getD ⟨true, true⟩).allowStacking }))
      ⟨[⟨0, 0, 0, box.width, box.height, box.depth⟩], [], [], [], 0, 1⟩
      (fun q hq => absurd hq (List.not_mem_nil q))
      (fun st item _ hstep =>
        foldl_preserve (fun st => ∀ p ∈ st.packedItems, InBounds box p) _
          (List.range item.quantity) st hstep
          (fun st2 i _ hst2 => packInstance_preserves_inBounds sqrtFn box item st2 i hst2))
      p hp

set_option maxHeartbeats 2000000 in
/-- Witness for C1: the cube packed in Scenario 1 lies within the
`100×100×100` box. -/
theorem packItems_bounds_witness : InBounds ⟨100, 100, 100⟩ scenario1Packed :=
  packItems_bounds sqrtStub ⟨100, 100, 100⟩ [scenario1Item] none (by norm_num)
    (by norm_num) (by norm_num) scenario1Packed (by decide)

/-- C2: in every result of `packItems`, no two packed items' bounding boxes
overlap beyond the `0.001` collision tolerance on all three axes
simultaneously (each placement passed `checkCollisionPrecise` against all
previously committed items, and the predicate is symmetric). -/
theorem packItems_no_overlap (sqrtFn : ℚ → ℚ) (box : BoxDimensions)
    (items : List Item) (options : Option OptimizeOptions) :
    List.Pairwise (fun p q => ¬ overlapsBeyondTolerance p q)
      (packItems sqrtFn box items options).packedItems :=
  foldl_preserve (fun st => List.Pairwise (fun p q => ¬ overlapsBeyondTolerance p q)
      st.packedItems) _
    (List.insertionSort itemSortLE (items.map fun item =>
      { item with
        allowRotation := some (options.getD ⟨true, true⟩).allowRotation,
        maxStack := .bool (options.getD ⟨true, true⟩).allowStacking }))
    ⟨[⟨0, 0, 0, box.width, box.height, box.depth⟩], [], [], [], 0, 1⟩
    List.Pairwise.nil
    (fun st item _ hstep =>
      foldl_preserve (fun st => List.Pairwise (fun p q => ¬ overlapsBeyondTolerance p q)
          st.packedItems) _
        (List.range item.quantity) st hstep
        (fun st2 i _ hst2 => packInstance_preserves_noOverlap sqrtFn box item st2 i hst2))

/-- C3: for every box, item list and options, the number of packed items
plus the sum of the quantities of the unpacked entries equals the sum of
the input quantities, and every unpacked entry carries quantity 1 (each
instance of each item is either committed or recorded once as unpacked
with quantity forced to 1). -/
theorem packItems_conservation (sqrtFn : ℚ → ℚ) (box : BoxDimensions)
    (items : List Item) (options : Option OptimizeOptions) :
    (packItems sqrtFn box items options).packedItems.length +
      ((packItems sqrtFn box items options).unpackedItems.map Item.quantity).sum =
      (items.map Item.quantity).sum ∧
    ∀ u ∈ (packItems sqrtFn box items options).unpackedItems, u.quantity = 1 := by
  constructor
  · have hperm : ((List.insertionSort itemSortLE (items.map fun item =>
        { item with
          allowRotation := some (options.getD ⟨true, true⟩).allowRotation,
          maxStack := .bool (options.getD ⟨true, true⟩).allowStacking })).map
            Item.quantity).sum = (items.map Item.quantity).sum := by
      have h1 := List.Perm.sum_eq ((List.perm_insertionSort itemSortLE
        (items.map fun item =>
          { item with
            allowRotation := some (options.getD ⟨true, true⟩).allowRotation,
            maxStack := .bool (options.getD ⟨true, true⟩).allowStacking })).map
              Item.quantity)
      rw [h1, List.map_map]
      rfl
    have h2 := packLoop_tally sqrtFn box
      (List.insertionSort itemSortLE (items.map fun item =>
        { item with
          allowRotation := some (options.getD ⟨true, true⟩).allowRotation,
          maxStack := .bool (options.getD ⟨true, true⟩).allowStacking }))
      ⟨[⟨0, 0, 0, box.width, box.height, box.depth⟩], [], [], [], 0, 1⟩
    rw [hperm] at h2
    exact h2.trans (by simp [instanceTally])
  · exact fun u hu =>
      foldl_preserve (fun st => ∀ u ∈ st.unpackedItems, u.quantity = 1) _
        (List.insertionSort itemSortLE (items.map fun item =>
          { item with
            allowRotation := some (options.getD ⟨true, true⟩).allowRotation,
            maxStack := .bool (options.getD ⟨true, true⟩).allowStacking }))
        ⟨[⟨0, 0, 0, box.width, box.height, box.depth⟩], [], [], [], 0, 1⟩
        (fun q hq => absurd hq (List.not_mem_nil q))
        (fun st item _ hstep =>
          foldl_preserve (fun st => ∀ u ∈ st.unpackedItems, u.quantity = 1) _
            (List.range item.quantity) st hstep
            (fun st2 i _ hst2 =>
              packInstance_preserves_unpackedOne sqrtFn box item st2 i hst2))
        u hu

end BoxScape
